import Mathlib

/-!
Verification of the `cloud-switch` web component
(`src/js/switch-component.js`).

The component keeps three DOM nodes in sync:
  * the host custom element (`this`), whose attributes `checked`,
    `disabled`, `readonly` are the externally visible state;
  * the shadow-DOM checkbox (`this.shadowCheck`) that drives the
    rendered visual state;
  * a hidden light-DOM checkbox (`this.checkbox`) used as the
    form-submission vehicle.

We model the mutable DOM state reachable from the component as a record
`SwitchState`.  Attribute presence of the boolean attributes is a `Bool`;
string-valued attributes are `Option String` (`none` = attribute absent);
numeric CSS lengths are exact rationals `ℚ` (an idealisation of JS
doubles; the arithmetic the component performs, `v * 0.45` and `v - 4`,
is exact on the inputs of interest).

`setAttribute`/`removeAttribute` are modelled as direct field updates.
The custom-element reaction (`attributeChangedCallback` firing inside a
host `setAttribute`) is modelled separately and re-entrantly by the
fuelled function `setSyncPropR` below.
-/

/-- Presence of the three observed boolean attributes
(`checked`, `disabled`, `readonly`) on one DOM node. -/
structure BoolAttrs where
  checked : Bool := false
  disabled : Bool := false
  readonly : Bool := false

/-- String-valued attributes of the host element together with the
mirrored copies the setters maintain on the label span and the hidden
checkbox (`label.setAttribute`, `checkbox.setAttribute` in the source). -/
structure TextAttrs where
  color : Option String := none
  valueAttr : Option String := none
  nameAttr : Option String := none
  onText : Option String := none
  offText : Option String := none
  role : Option String := none
  tabindex : Option String := none
  labelOnText : Option String := none
  labelOffText : Option String := none
  boxName : Option String := none
  boxValue : Option String := none

/-- The numeric layout state written by the `width`/`height` setters:
the host `width`/`height` attributes, the host inline style, and the
inline style of the visual handle (`this.handle`). -/
structure Geometry where
  widthAttr : Option ℚ := none
  heightAttr : Option ℚ := none
  styleWidth : Option ℚ := none
  styleHeight : Option ℚ := none
  handleWidth : Option ℚ := none
  handleHeight : Option ℚ := none
  handleLeft : Option ℚ := none

/-- The complete mutable state of one `cloud-switch` instance:
boolean attributes of host / shadow checkbox / hidden checkbox, the two
JS `readonly` properties the `readonly` setter additionally writes, the
host `classList` membership of `checked`/`disabled`/`readonly`, the
string attributes, the geometry, and whether the `click`/`keyup`
listeners are currently attached. -/
structure SwitchState where
  host : BoolAttrs := {}
  shadow : BoolAttrs := {}
  box : BoolAttrs := {}
  shadowReadonlyProp : Bool := false
  boxReadonlyProp : Bool := false
  classes : BoolAttrs := {}
  text : TextAttrs := {}
  geom : Geometry := {}
  clickListener : Bool := false
  keyupListener : Bool := false

/-- The three attributes that are kept in sync across host, shadow
checkbox and hidden checkbox, and that `attributeChangedCallback`
handles in its explicit `switch` cases. -/
inductive SyncAttr where
  | checked
  | disabled
  | readonly

/-- Read one of the three boolean attributes off a node. -/
def BoolAttrs.get : BoolAttrs → SyncAttr → Bool
  | b, .checked => b.checked
  | b, .disabled => b.disabled
  | b, .readonly => b.readonly

/-- Write one of the three boolean attributes on a node. -/
def BoolAttrs.set : BoolAttrs → SyncAttr → Bool → BoolAttrs
  | b, .checked, v => { b with checked := v }
  | b, .disabled, v => { b with disabled := v }
  | b, .readonly, v => { b with readonly := v }

/-- JS `Number.parseInt` applied to a CSS px length: truncation of the
numeric value toward zero. -/
def ratTrunc (q : ℚ) : ℤ := if q < 0 then ⌈q⌉ else ⌊q⌋

/-- `this.VALID_COLORS` (switch-component.js line 41): the seven color
themes accepted by the `color` setter. -/
def VALID_COLORS : List String :=
  ["success", "primary", "secondary", "danger", "warning", "info", "dark"]

/-- `get checked()` (line 381): `this.hasAttribute('checked')`. -/
def getChecked (s : SwitchState) : Bool := s.host.checked

/-- `get disabled()` (line 418): `this.hasAttribute('disabled')`. -/
def getDisabled (s : SwitchState) : Bool := s.host.disabled

/-- `get readonly()` (line 457): `this.hasAttribute('readonly')`. -/
def getReadonly (s : SwitchState) : Bool := s.host.readonly

/-- `set width(value)` (lines 192-198): store the `width` attribute, set
the host style width, set the handle style width to `value * 0.45`, and
set `--handle-left` to `value - parseInt(computed handle width) - 4`.
The computed handle width read back by `getComputedStyle` is the handle
style width just written. -/
def set_width (value : ℚ) (s : SwitchState) : SwitchState :=
  let s1 := { s with geom.widthAttr := some value }
  let s2 := { s1 with geom.styleWidth := some value }
  let s3 := { s2 with geom.handleWidth := some (value * (45 / 100)) }
  let left : ℚ := value - (ratTrunc (s3.geom.handleWidth.getD 0) : ℚ) - 4
  { s3 with geom.handleLeft := some left }

/-- `set height(value)` (lines 213-218): store the `height` attribute,
set the host style height, and set the handle style height to
`value - 4`. -/
def set_height (value : ℚ) (s : SwitchState) : SwitchState :=
  let s1 := { s with geom.heightAttr := some value }
  let s2 := { s1 with geom.styleHeight := some value }
  { s2 with geom.handleHeight := some (value - 4) }

/-- `set color(value)` (lines 240-246): if `value` is not in
`VALID_COLORS`, return without any change (no exception is thrown);
otherwise set the `color` attribute. -/
def set_color (value : String) (s : SwitchState) : SwitchState :=
  if !(VALID_COLORS.contains value) then s
  else { s with text.color := some value }

/-- `set 'on-text'(value)` (lines 276-279): set the attribute on the
label span and on the host. -/
def set_onText (value : String) (s : SwitchState) : SwitchState :=
  { s with text.labelOnText := some value, text.onText := some value }

/-- `set 'off-text'(value)` (lines 321-324): set the attribute on the
label span and on the host. -/
def set_offText (value : String) (s : SwitchState) : SwitchState :=
  { s with text.labelOffText := some value, text.offText := some value }

/-- `set name(value)` (lines 352-355): set the `name` attribute on the
hidden checkbox and on the host. -/
def set_name (value : String) (s : SwitchState) : SwitchState :=
  { s with text.boxName := some value, text.nameAttr := some value }

/-- `set value(value)` (lines 370-373): set the `value` attribute on the
host and on the hidden checkbox. -/
def set_value (value : String) (s : SwitchState) : SwitchState :=
  { s with text.valueAttr := some value, text.boxValue := some value }

/-- `set checked(value)` (lines 388-410).  `Boolean(value)` coercion is
reflected by taking the argument as `Bool`.  Each `setAttribute` /
`removeAttribute` is guarded by a `hasAttribute` test and updates the
host, the shadow checkbox and the hidden checkbox in source order. -/
def set_checked (value : Bool) (s : SwitchState) : SwitchState :=
  let isChecked := value
  if isChecked then
    let s1 := if !s.host.checked then { s with host.checked := true } else s
    let s2 := if !s1.shadow.checked then { s1 with shadow.checked := true } else s1
    if !s2.box.checked then { s2 with box.checked := true } else s2
  else
    let s1 := if s.host.checked then { s with host.checked := false } else s
    let s2 := if s1.shadow.checked then { s1 with shadow.checked := false } else s1
    if s2.box.checked then { s2 with box.checked := false } else s2

/-- `set disabled(value)` (lines 427-449), same guarded shape as
`set_checked`. -/
def set_disabled (value : Bool) (s : SwitchState) : SwitchState :=
  let isDisabled := value
  if isDisabled then
    let s1 := if !s.host.disabled then { s with host.disabled := true } else s
    let s2 := if !s1.shadow.disabled then { s1 with shadow.disabled := true } else s1
    if !s2.box.disabled then { s2 with box.disabled := true } else s2
  else
    let s1 := if s.host.disabled then { s with host.disabled := false } else s
    let s2 := if s1.shadow.disabled then { s1 with shadow.disabled := false } else s1
    if s2.box.disabled then { s2 with box.disabled := false } else s2

/-- `set readonly(value)` (lines 467-497).  Inside the guard for the
shadow / hidden checkbox it additionally assigns the JS `readonly`
property of that checkbox; the host branch has no property write. -/
def set_readonly (value : Bool) (s : SwitchState) : SwitchState :=
  let isReadonly := value
  if isReadonly then
    let s1 := if !s.host.readonly then { s with host.readonly := true } else s
    let s2 :=
      if !s1.shadow.readonly then
        { s1 with shadow.readonly := true, shadowReadonlyProp := true }
      else s1
    if !s2.box.readonly then
      { s2 with box.readonly := true, boxReadonlyProp := true }
    else s2
  else
    let s1 := if s.host.readonly then { s with host.readonly := false } else s
    let s2 :=
      if s1.shadow.readonly then
        { s1 with shadow.readonly := false, shadowReadonlyProp := false }
      else s1
    if s2.box.readonly then
      { s2 with box.readonly := false, boxReadonlyProp := false }
    else s2

/-- `_click(e)` (lines 151-160): return immediately (after
`e.preventDefault()`, which has no effect on the modelled state) when
the element is readonly or disabled; otherwise flip `checked` through
the `checked` setter.  The boolean return value of the handler is not
observed anywhere, so it is dropped. -/
def clickHandler (s : SwitchState) : SwitchState :=
  if getReadonly s || getDisabled s then s
  else set_checked (!getChecked s) s

/-- `_keyup(e)` (lines 170-177): return `false` when readonly or
disabled; on SPACE (32) or ENTER (13) flip `checked` and return the
assigned value `!old`; on any other key return `false`.  The second
component is the handler's return value. -/
def keyupHandler (which : Int) (s : SwitchState) : SwitchState × Bool :=
  if getReadonly s || getDisabled s then (s, false)
  else if which == 32 || which == 13 then
    (set_checked (!getChecked s) s, !getChecked s)
  else (s, false)

/-- Dispatch of a `click` event on the element: `_click` runs exactly
when the listener attached by `connectedCallback` is present. -/
def dispatchClick (s : SwitchState) : SwitchState :=
  if s.clickListener then clickHandler s else s

/-- Dispatch of a `keyup` event on the element: `_keyup` runs exactly
when the listener attached by `connectedCallback` is present. -/
def dispatchKeyup (which : Int) (s : SwitchState) : SwitchState :=
  if s.keyupListener then (keyupHandler which s).1 else s

/-- `toggle()` (lines 139-141): `return this.click()`.
`HTMLElement.click()` synthesises a `click` event on the element, which
invokes `_click` when the click listener is attached. -/
def toggle (s : SwitchState) : SwitchState :=
  dispatchClick s

/-- The six guarded default-attribute writes at the start of
`connectedCallback` (lines 76-92): `role`, `tabindex`, `color`,
`on-text`, `off-text` and `value` are set only when absent.  All six
live in the `TextAttrs` component of the state. -/
def applyDefaults (t : TextAttrs) : TextAttrs :=
  let t1 := if t.role.isSome then t else { t with role := some "checkbox" }
  let t2 := if t1.tabindex.isSome then t1 else { t1 with tabindex := some "0" }
  let t3 := if t2.color.isSome then t2 else { t2 with color := some "info" }
  let t4 := if t3.onText.isSome then t3 else { t3 with onText := some "ON" }
  let t5 := if t4.offText.isSome then t4 else { t4 with offText := some "OFF" }
  if t5.valueAttr.isSome then t5 else { t5 with valueAttr := some "1" }

/-- `connectedCallback()` (lines 75-118): write the default attributes,
run the `height`, `width`, `checked`, `disabled` and `readonly` setters
with `this.hasAttribute(...) || default`, and attach the `click` and
`keyup` listeners. -/
def connectedCallback (s : SwitchState) : SwitchState :=
  let s1 := { s with text := applyDefaults s.text }
  let s2 := set_height 24 s1
  let s3 := set_width 48 s2
  let s4 := set_checked (s3.host.checked || true) s3
  let s5 := set_disabled (s4.host.disabled || false) s4
  let s6 := set_readonly (s5.host.readonly || false) s5
  { s6 with clickListener := true, keyupListener := true }

/-- `disconnectedCallback()` (lines 128-131): detach the `click` and
`keyup` listeners. -/
def disconnectedCallback (s : SwitchState) : SwitchState :=
  { s with clickListener := false, keyupListener := false }

/-- The user-interaction events the component listens for. -/
inductive Ev where
  | click
  | keyup (which : Int)

/-- Dispatch one event against the element, honouring the listener
flags. -/
def dispatchEv : Ev → SwitchState → SwitchState
  | .click, s => dispatchClick s
  | .keyup w, s => dispatchKeyup w s

/-- Update the host `classList` membership of `checked` / `disabled` /
`readonly` (`classList.add` / `classList.remove` in
`attributeChangedCallback`, lines 539-543). -/
def classSet : SyncAttr → Bool → SwitchState → SwitchState
  | .checked, v, s => { s with classes.checked := v }
  | .disabled, v, s => { s with classes.disabled := v }
  | .readonly, v, s => { s with classes.readonly := v }

/-- `this[attr] = hasAttr` for the three synchronised boolean
attributes: dispatch to the corresponding property setter. -/
def setSyncProp : SyncAttr → Bool → SwitchState → SwitchState
  | .checked, v, s => set_checked v s
  | .disabled, v, s => set_disabled v s
  | .readonly, v, s => set_readonly v s

/-- `attributeChangedCallback(attr, oldValue, newValue)` for
`attr ∈ {checked, disabled, readonly}` (lines 531-545): with
`hasAttr = (newValue !== null)`, run `this[attr] = hasAttr` and then
add/remove the class named after the attribute.  The `default` branch
for the remaining observed attributes runs `this[attr] = newValue`,
i.e. exactly the property setters modelled above. -/
def attributeChangedCallbackBool (a : SyncAttr) (newValuePresent : Bool)
    (s : SwitchState) : SwitchState :=
  let hasAttr := newValuePresent
  classSet a hasAttr (setSyncProp a hasAttr s)

/-- An external `setAttribute`/`removeAttribute` of one of the three
boolean attributes on the host: the raw attribute change followed by
the `attributeChangedCallback` reaction it triggers. -/
def extBoolAttrChange (a : SyncAttr) (v : Bool) (s : SwitchState) : SwitchState :=
  attributeChangedCallbackBool a v { s with host := s.host.set a v }

/-- Raw host attribute write (the `setAttribute`/`removeAttribute` call
itself, before the custom-element reaction runs). -/
def hostSetRaw : SyncAttr → Bool → SwitchState → SwitchState
  | .checked, v, s => { s with host.checked := v }
  | .disabled, v, s => { s with host.disabled := v }
  | .readonly, v, s => { s with host.readonly := v }

/-- The shadow-checkbox branch of the setters: write the attribute, and
for `readonly` also the JS `readonly` property (lines 474-477 /
487-490). -/
def shadowSetFull : SyncAttr → Bool → SwitchState → SwitchState
  | .checked, v, s => { s with shadow.checked := v }
  | .disabled, v, s => { s with shadow.disabled := v }
  | .readonly, v, s => { s with shadow.readonly := v, shadowReadonlyProp := v }

/-- The hidden-checkbox branch of the setters: write the attribute, and
for `readonly` also the JS `readonly` property (lines 479-482 /
492-495). -/
def boxSetFull : SyncAttr → Bool → SwitchState → SwitchState
  | .checked, v, s => { s with box.checked := v }
  | .disabled, v, s => { s with box.disabled := v }
  | .readonly, v, s => { s with box.readonly := v, boxReadonlyProp := v }

/-- Re-entrant model of the `checked` / `disabled` / `readonly`
property setters under real custom-element semantics: a host
`setAttribute`/`removeAttribute` synchronously fires
`attributeChangedCallback`, whose `this[attr] = hasAttr` re-enters the
same setter before the class update and before the outer call's
shadow/hidden-checkbox branches run.  `fuel` bounds the re-entrance
depth; `none` means the fuel was exhausted before the sync settled. -/
def setSyncPropR : Nat → SyncAttr → Bool → SwitchState → Option SwitchState
  | 0, _, _, _ => none
  | fuel + 1, a, v, s =>
    let afterHost : Option SwitchState :=
      if s.host.get a = v then some s
      else
        match setSyncPropR fuel a v (hostSetRaw a v s) with
        | none => none
        | some s2 => some (classSet a v s2)
    match afterHost with
    | none => none
    | some s3 =>
      let s4 := if s3.shadow.get a = v then s3 else shadowSetFull a v s3
      some (if s4.box.get a = v then s4 else boxSetFull a v s4)

/-- The net effect the re-entrant setter settles on: all three
attribute copies equal the target value, the `readonly` properties
follow the attribute writes that actually happened, and the class is
updated exactly when the host attribute changed. -/
def setSyncNet : SyncAttr → Bool → SwitchState → SwitchState
  | .checked, v, s =>
    let cls := if s.host.checked = v then s.classes.checked else v
    { s with host.checked := v, shadow.checked := v, box.checked := v, classes.checked := cls }
  | .disabled, v, s =>
    let cls := if s.host.disabled = v then s.classes.disabled else v
    { s with host.disabled := v, shadow.disabled := v, box.disabled := v, classes.disabled := cls }
  | .readonly, v, s =>
    let cls := if s.host.readonly = v then s.classes.readonly else v
    let sp := if s.shadow.readonly = v then s.shadowReadonlyProp else v
    let bp := if s.box.readonly = v then s.boxReadonlyProp else v
    { s with host.readonly := v, shadow.readonly := v, box.readonly := v, shadowReadonlyProp := sp, boxReadonlyProp := bp, classes.readonly := cls }

/-- The agreement invariant: each of `checked`, `disabled`, `readonly`
has the same presence on the host element, the shadow checkbox and the
hidden form checkbox. -/
def inSync (s : SwitchState) : Prop :=
  (s.host.checked = s.shadow.checked ∧ s.host.checked = s.box.checked) ∧
  (s.host.disabled = s.shadow.disabled ∧ s.host.disabled = s.box.disabled) ∧
  (s.host.readonly = s.shadow.readonly ∧ s.host.readonly = s.box.readonly)

/-- The operations of the component: every property setter, the
`attributeChangedCallback` reaction to an external boolean-attribute
change, and the `click`/`keyup` handlers (with `toggle`, which
delegates to `click`). -/
inductive Op where
  | setCheckedOp (b : Bool)
  | setDisabledOp (b : Bool)
  | setReadonlyOp (b : Bool)
  | setColorOp (v : String)
  | setWidthOp (v : ℚ)
  | setHeightOp (v : ℚ)
  | setValueOp (v : String)
  | setNameOp (v : String)
  | setOnTextOp (v : String)
  | setOffTextOp (v : String)
  | attrChangedOp (a : SyncAttr) (present : Bool)
  | clickOp
  | keyupOp (which : Int)
  | toggleOp

/-- Interpretation of one operation as a state transformer. -/
def applyOp : Op → SwitchState → SwitchState
  | .setCheckedOp b, s => set_checked b s
  | .setDisabledOp b, s => set_disabled b s
  | .setReadonlyOp b, s => set_readonly b s
  | .setColorOp v, s => set_color v s
  | .setWidthOp v, s => set_width v s
  | .setHeightOp v, s => set_height v s
  | .setValueOp v, s => set_value v s
  | .setNameOp v, s => set_name v s
  | .setOnTextOp v, s => set_onText v s
  | .setOffTextOp v, s => set_offText v s
  | .attrChangedOp a p, s => extBoolAttrChange a p s
  | .clickOp, s => clickHandler s
  | .keyupOp w, s => (keyupHandler w s).1
  | .toggleOp, s => toggle s

/-- A freshly constructed, not yet connected switch: no attributes set,
no listeners attached. -/
def sInit : SwitchState := {}

/-- A switch whose `disabled` attribute is set on all three nodes. -/
def sDis : SwitchState :=
  { sInit with host.disabled := true, shadow.disabled := true, box.disabled := true }

/-- The guarded writes of `set checked` are extensionally a plain
three-way update: every guard only skips a write that would not have
changed anything. -/
theorem set_checked_eq (v : Bool) (s : SwitchState) :
    set_checked v s = { s with host.checked := v, shadow.checked := v, box.checked := v } := by
  obtain ⟨⟨hc, hd, hr⟩, ⟨sc, sd, sr⟩, ⟨bc, bd, br⟩, srp, brp, cls, tx, gm, cl, kl⟩ := s
  cases v <;> cases hc <;> cases sc <;> cases bc <;> rfl

/-- The guarded writes of `set disabled` are extensionally a plain
three-way update. -/
theorem set_disabled_eq (v : Bool) (s : SwitchState) :
    set_disabled v s = { s with host.disabled := v, shadow.disabled := v, box.disabled := v } := by
  obtain ⟨⟨hc, hd, hr⟩, ⟨sc, sd, sr⟩, ⟨bc, bd, br⟩, srp, brp, cls, tx, gm, cl, kl⟩ := s
  cases v <;> cases hd <;> cases sd <;> cases bd <;> rfl

/-- The guarded writes of `set readonly` update the three attributes,
and each checkbox `readonly` property exactly when the corresponding
attribute write actually happened. -/
theorem set_readonly_eq (v : Bool) (s : SwitchState) :
    set_readonly v s = { s with host.readonly := v, shadow.readonly := v, box.readonly := v, shadowReadonlyProp := if s.shadow.readonly = v then s.shadowReadonlyProp else v, boxReadonlyProp := if s.box.readonly = v then s.boxReadonlyProp else v } := by
  obtain ⟨⟨hc, hd, hr⟩, ⟨sc, sd, sr⟩, ⟨bc, bd, br⟩, srp, brp, cls, tx, gm, cl, kl⟩ := s
  cases v <;> cases hr <;> cases sr <;> cases br <;> rfl

/-- C1: for every switch state in which the `disabled` or the `readonly`
flag is set, a toggle attempt — the click handler `_click`, the keyup
handler `_keyup` (any key), or the `toggle()` method, which delegates
to `click` — is a no-op: the checked state after the attempt equals the
checked state before it. -/
theorem toggle_noop_of_disabled_or_readonly (s : SwitchState) (w : Int)
    (h : getDisabled s = true ∨ getReadonly s = true) :
    getChecked (clickHandler s) = getChecked s ∧
    getChecked ((keyupHandler w s).1) = getChecked s ∧
    getChecked (toggle s) = getChecked s := by
  have hb : (getReadonly s || getDisabled s) = true := by
    rcases h with h | h <;> simp [h]
  refine ⟨?_, ?_, ?_⟩
  · simp [clickHandler, hb]
  · simp [keyupHandler, hb]
  · simp [toggle, dispatchClick, clickHandler, hb]

/-- Witness for C1 at the concrete disabled switch `sDis` and key
code 32. -/
theorem toggle_noop_of_disabled_or_readonly_witness :
    getChecked (clickHandler sDis) = getChecked sDis ∧
    getChecked ((keyupHandler 32 sDis).1) = getChecked sDis ∧
    getChecked (toggle sDis) = getChecked sDis :=
  toggle_noop_of_disabled_or_readonly sDis 32 (Or.inl (by decide))

/-- C3: assigning `v` to the `color` property sets the `color` attribute
to `v` when `v` is one of the seven named themes of `VALID_COLORS`, and
otherwise is silently ignored: the setter returns normally (it is a
total function) and the whole state — in particular the previous color —
is unchanged. -/
theorem set_color_valid_or_ignored (v : String) (s : SwitchState) :
    set_color v s =
      if VALID_COLORS.contains v then { s with text.color := some v } else s := by
  unfold set_color
  cases hm : VALID_COLORS.contains v <;> simp [hm]

/-- C4: performing the toggle operation twice in succession returns the
switch to its original checked state, including the no-op cases
(listener not attached, or `disabled`/`readonly` set). -/
theorem toggle_twice_restores_checked (s : SwitchState) :
    getChecked (toggle (toggle s)) = getChecked s := by
  obtain ⟨⟨hc, hd, hr⟩, ⟨sc, sd, sr⟩, ⟨bc, bd, br⟩, srp, brp, cls, tx, gm, cl, kl⟩ := s
  cases cl <;> cases hd <;> cases hr <;> cases hc <;> cases sc <;> cases bc <;> rfl

/-- C5: setting `disabled` to true marks the hidden form-submission
checkbox (`this.checkbox`) disabled, while the `readonly` setter — with
either argument — never touches the disabled state of that checkbox, so
a readonly switch still participates in form submission. -/
theorem disabled_blocks_submission_readonly_does_not (v : Bool) (s : SwitchState) :
    (set_disabled true s).box.disabled = true ∧
    (set_readonly v s).box.disabled = s.box.disabled := by
  constructor
  · simp [set_disabled_eq]
  · simp [set_readonly_eq]

/-- C6 counterexample: the claim that both setters resize the handle by
a fixed proportion of the switch size is false.  There are no constants
`cw`, `ch` with handle width `cw * v` and handle height `ch * v` for
every assigned size `v`: the height setter writes `v - 4`, which gives
the ratio 20/24 at `v = 24` but 44/48 at `v = 48`. -/
theorem handle_height_not_proportional :
    ¬ ∃ cw ch : ℚ, ∀ (v : ℚ) (s : SwitchState),
      (set_width v s).geom.handleWidth = some (cw * v) ∧
      (set_height v s).geom.handleHeight = some (ch * v) := by
  rintro ⟨cw, ch, h⟩
  have h24 := (h 24 sInit).2
  have h48 := (h 48 sInit).2
  simp [set_height] at h24 h48
  norm_num at h24 h48
  linarith

/-- C6 amended: the width setter makes the handle width the fixed
proportion `0.45` of the switch width, while the height setter makes
the handle height the switch height minus a fixed 4-pixel inset
(`v - 4`), which is not a fixed proportion of the height. -/
theorem handle_resize_formulas (v : ℚ) (s : SwitchState) :
    (set_width v s).geom.handleWidth = some (v * (45 / 100)) ∧
    (set_height v s).geom.handleHeight = some (v - 4) := by
  constructor
  · simp [set_width]
  · simp [set_height]

/-- An event dispatched while neither listener is attached leaves the
state unchanged. -/
theorem dispatchEv_no_listeners (e : Ev) (t : SwitchState)
    (hc : t.clickListener = false) (hk : t.keyupListener = false) :
    dispatchEv e t = t := by
  cases e <;> simp [dispatchEv, dispatchClick, dispatchKeyup, hc, hk]

/-- C7: after `disconnectedCallback` has run, the `click` and `keyup`
listeners are detached, so no subsequent sequence of click or keyup
events ever changes the switch's checked state (in fact the state does
not change at all). -/
theorem no_toggle_after_disconnect (s : SwitchState) (evs : List Ev) :
    getChecked (evs.foldl (fun t e => dispatchEv e t) (disconnectedCallback s)) =
      getChecked (disconnectedCallback s) := by
  have key : ∀ (l : List Ev) (t : SwitchState), t.clickListener = false →
      t.keyupListener = false → l.foldl (fun t e => dispatchEv e t) t = t := by
    intro l
    induction l with
    | nil => intro t _ _; rfl
    | cons e l ih =>
      intro t hc hk
      rw [List.foldl_cons, dispatchEv_no_listeners e t hc hk]
      exact ih t hc hk
  rw [key evs (disconnectedCallback s) rfl rfl]

/-- C8: `connectedCallback` always ends with `checked` set, whatever the
initial attribute state: the initializer
`this.hasAttribute('checked') || true` evaluates to `true` in all
cases, so a freshly connected switch is always in the on state. -/
theorem connected_always_checked (s : SwitchState) :
    getChecked (connectedCallback s) = true := by
  simp [connectedCallback, set_height, set_width, set_checked_eq,
    set_disabled_eq, set_readonly_eq, getChecked]

/-- C9: on a switch that is neither readonly nor disabled, `_keyup`
toggles the checked state when the key code is 32 (space) or 13
(enter), and for every other key code it leaves the whole state
unchanged and returns `false`. -/
theorem keyup_toggles_iff_space_or_enter (w : Int) (s : SwitchState)
    (hr : getReadonly s = false) (hd : getDisabled s = false) :
    ((w = 32 ∨ w = 13) → getChecked (keyupHandler w s).1 = !getChecked s) ∧
    (¬(w = 32 ∨ w = 13) → keyupHandler w s = (s, false)) := by
  constructor
  · rintro (rfl | rfl) <;>
      simp [keyupHandler, hr, hd, set_checked_eq, getChecked]
  · intro hw
    obtain ⟨h1, h2⟩ := not_or.mp hw
    simp [keyupHandler, hr, hd, h1, h2]

/-- Witness for C9: key code 32 toggles the initial (unchecked,
enabled) switch on, and key code 65 leaves it untouched. -/
theorem keyup_toggles_iff_space_or_enter_witness :
    (getChecked (keyupHandler 32 sInit).1 = !getChecked sInit) ∧
    keyupHandler 65 sInit = (sInit, false) :=
  ⟨(keyup_toggles_iff_space_or_enter 32 sInit rfl rfl).1 (Or.inl rfl),
   (keyup_toggles_iff_space_or_enter 65 sInit rfl rfl).2 (by decide)⟩

/-- C2: the agreement invariant — host element, hidden form checkbox
and shadow checkbox carry the same `checked`, `disabled` and `readonly`
attributes — is preserved by every operation of the component: all
property setters, the `attributeChangedCallback` reaction to an
external boolean-attribute change, and the click / keyup handlers. -/
theorem sync_invariant_preserved (op : Op) (s : SwitchState) (h : inSync s) :
    inSync (applyOp op s) := by
  obtain ⟨⟨h1, h2⟩, ⟨h3, h4⟩, ⟨h5, h6⟩⟩ := h
  cases op with
  | setCheckedOp b =>
    show inSync (set_checked b s)
    rw [set_checked_eq]
    exact ⟨⟨rfl, rfl⟩, ⟨h3, h4⟩, ⟨h5, h6⟩⟩
  | setDisabledOp b =>
    show inSync (set_disabled b s)
    rw [set_disabled_eq]
    exact ⟨⟨h1, h2⟩, ⟨rfl, rfl⟩, ⟨h5, h6⟩⟩
  | setReadonlyOp b =>
    show inSync (set_readonly b s)
    rw [set_readonly_eq]
    exact ⟨⟨h1, h2⟩, ⟨h3, h4⟩, ⟨rfl, rfl⟩⟩
  | setColorOp v =>
    show inSync (set_color v s)
    unfold set_color
    split
    · exact ⟨⟨h1, h2⟩, ⟨h3, h4⟩, ⟨h5, h6⟩⟩
    · exact ⟨⟨h1, h2⟩, ⟨h3, h4⟩, ⟨h5, h6⟩⟩
  | setWidthOp v => exact ⟨⟨h1, h2⟩, ⟨h3, h4⟩, ⟨h5, h6⟩⟩
  | setHeightOp v => exact ⟨⟨h1, h2⟩, ⟨h3, h4⟩, ⟨h5, h6⟩⟩
  | setValueOp v => exact ⟨⟨h1, h2⟩, ⟨h3, h4⟩, ⟨h5, h6⟩⟩
  | setNameOp v => exact ⟨⟨h1, h2⟩, ⟨h3, h4⟩, ⟨h5, h6⟩⟩
  | setOnTextOp v => exact ⟨⟨h1, h2⟩, ⟨h3, h4⟩, ⟨h5, h6⟩⟩
  | setOffTextOp v => exact ⟨⟨h1, h2⟩, ⟨h3, h4⟩, ⟨h5, h6⟩⟩
  | attrChangedOp a p =>
    cases a with
    | checked =>
      show inSync (classSet .checked p (set_checked p { s with host := s.host.set .checked p }))
      simp only [classSet, BoolAttrs.set]
      rw [set_checked_eq]
      exact ⟨⟨rfl, rfl⟩, ⟨h3, h4⟩, ⟨h5, h6⟩⟩
    | disabled =>
      show inSync (classSet .disabled p (set_disabled p { s with host := s.host.set .disabled p }))
      simp only [classSet, BoolAttrs.set]
      rw [set_disabled_eq]
      exact ⟨⟨h1, h2⟩, ⟨rfl, rfl⟩, ⟨h5, h6⟩⟩
    | readonly =>
      show inSync (classSet .readonly p (set_readonly p { s with host := s.host.set .readonly p }))
      simp only [classSet, BoolAttrs.set]
      rw [set_readonly_eq]
      exact ⟨⟨h1, h2⟩, ⟨h3, h4⟩, ⟨rfl, rfl⟩⟩
  | clickOp =>
    show inSync (clickHandler s)
    unfold clickHandler
    split
    · exact ⟨⟨h1, h2⟩, ⟨h3, h4⟩, ⟨h5, h6⟩⟩
    · rw [set_checked_eq]
      exact ⟨⟨rfl, rfl⟩, ⟨h3, h4⟩, ⟨h5, h6⟩⟩
  | keyupOp w =>
    show inSync ((keyupHandler w s).1)
    unfold keyupHandler
    split
    · exact ⟨⟨h1, h2⟩, ⟨h3, h4⟩, ⟨h5, h6⟩⟩
    · split
      · show inSync (set_checked (!getChecked s) s)
        rw [set_checked_eq]
        exact ⟨⟨rfl, rfl⟩, ⟨h3, h4⟩, ⟨h5, h6⟩⟩
      · exact ⟨⟨h1, h2⟩, ⟨h3, h4⟩, ⟨h5, h6⟩⟩
  | toggleOp =>
    show inSync (dispatchClick s)
    unfold dispatchClick
    split
    · unfold clickHandler
      split
      · exact ⟨⟨h1, h2⟩, ⟨h3, h4⟩, ⟨h5, h6⟩⟩
      · rw [set_checked_eq]
        exact ⟨⟨rfl, rfl⟩, ⟨h3, h4⟩, ⟨h5, h6⟩⟩
    · exact ⟨⟨h1, h2⟩, ⟨h3, h4⟩, ⟨h5, h6⟩⟩

/-- Witness for C2: the invariant holds of the initial state and is
preserved by a click. -/
theorem sync_invariant_preserved_witness :
    inSync (applyOp Op.clickOp sInit) :=
  sync_invariant_preserved Op.clickOp sInit ⟨⟨rfl, rfl⟩, ⟨rfl, rfl⟩, ⟨rfl, rfl⟩⟩

/-- C10: under the re-entrant custom-element semantics, the guarded
`setAttribute`/`removeAttribute` calls of the `checked` / `disabled` /
`readonly` setters make the mutual recursion with
`attributeChangedCallback` terminate: re-entrance depth 2 always
suffices and lands on the net state `setSyncNet a v s`, that state is a
fixed point (running the setter on it again returns it unchanged, so
the setters are idempotent), and re-assigning the current value to an
already synchronised element is a complete no-op. -/
theorem setter_sync_terminates_and_idempotent (a : SyncAttr) (v : Bool) (s : SwitchState) :
    setSyncPropR 2 a v s = some (setSyncNet a v s) ∧
    setSyncPropR 2 a v (setSyncNet a v s) = some (setSyncNet a v s) ∧
    (s.host.get a = v → s.shadow.get a = v → s.box.get a = v →
      setSyncPropR 2 a v s = some s) := by
  obtain ⟨⟨hc, hd, hr⟩, ⟨sc, sd, sr⟩, ⟨bc, bd, br⟩, srp, brp, ⟨cc, cd, cr⟩, tx, gm, cl, kl⟩ := s
  cases a with
  | checked =>
    cases v <;> cases hc <;> cases sc <;> cases bc <;>
      refine ⟨rfl, rfl, fun e1 e2 e3 => ?_⟩ <;>
      first
      | rfl
      | exact Bool.noConfusion e1
      | exact Bool.noConfusion e2
      | exact Bool.noConfusion e3
  | disabled =>
    cases v <;> cases hd <;> cases sd <;> cases bd <;>
      refine ⟨rfl, rfl, fun e1 e2 e3 => ?_⟩ <;>
      first
      | rfl
      | exact Bool.noConfusion e1
      | exact Bool.noConfusion e2
      | exact Bool.noConfusion e3
  | readonly =>
    cases v <;> cases hr <;> cases sr <;> cases br <;>
      refine ⟨rfl, rfl, fun e1 e2 e3 => ?_⟩ <;>
      first
      | rfl
      | exact Bool.noConfusion e1
      | exact Bool.noConfusion e2
      | exact Bool.noConfusion e3

/-- Witness for C10: re-assigning the already-absent `checked`
attribute of the pristine state is a no-op of the re-entrant sync. -/
theorem setter_sync_terminates_and_idempotent_witness :
    setSyncPropR 2 SyncAttr.checked false sInit = some sInit :=
  (setter_sync_terminates_and_idempotent SyncAttr.checked false sInit).2.2 rfl rfl rfl
